import Mathlib

/-!
Shallow embedding of the core of `jsonlog2elasticsearch`
(src/jsonlog2elasticsearch/__init__.py): the decode/transform/route pipeline
(`process`), the batching commit protocol (`commit` over `chunks`), the
rotation-detection predicate (`patched_is_new_file`) and the default index
router (`default_index_func`).

External collaborators (the Python `json` module, `dateutil.parser`,
`elasticsearch.helpers.bulk`, the clock) are modelled as explicit parameters
or as small faithful models; everything else is translated line by line from
the source.
-/

/-- JSON values, as produced by Python's `json.loads`: `dict` is `Json.obj`
(an association list of string keys), numbers are modelled as integers
(floats are not needed by any claim). -/
inductive Json where
  | null : Json
  | bool (b : Bool) : Json
  | num (n : Int) : Json
  | str (s : String) : Json
  | arr (elems : List Json) : Json
  | obj (members : List (String × Json)) : Json

/-- Python's `isinstance(x, dict)` on a decoded JSON value. -/
def Json.isDict : Json → Bool
  | .obj _ => true
  | _ => false

/-- Key lookup in a decoded JSON dict: `k in d` / `d[k]` (returns `none` when
the key is absent or the value is not a dict; the source only looks keys up
in values already checked to be dicts). -/
def Json.lookup (j : Json) (k : String) : Option Json :=
  match j with
  | .obj members => (members.find? (fun p => p.1 = k)).map (fun p => p.2)
  | _ => none

/-- Python's `str(type(x))` for a decoded JSON value, used only inside one
warning message of `process`. -/
def pyTypeName : Json → String
  | .null => "<class \x27NoneType\x27>"
  | .bool _ => "<class \x27bool\x27>"
  | .num _ => "<class \x27int\x27>"
  | .str _ => "<class \x27str\x27>"
  | .arr _ => "<class \x27list\x27>"
  | .obj _ => "<class \x27dict\x27>"

/-- Log levels used by the source (`LOG.info` / `LOG.warning` / `LOG.debug`). -/
inductive LogLevel where
  | info : LogLevel
  | warning : LogLevel
  | debug : LogLevel
deriving DecidableEq, Repr

/-- One emitted log record. -/
structure LogEvent where
  level : LogLevel
  msg : String
deriving DecidableEq, Repr

/-- A pending write operation, the dict appended to `TO_SEND`:
`{"_op_type": "index", "_index": index, "_type": "_doc", "_source": transformed}`. -/
structure Op where
  op_type : String
  index : String
  doc_type : String
  source : Json

/-- Result of one `process` call: the Python return value (or an uncaught
exception, as `Except.error`), the new `TO_SEND` buffer, and the log records
emitted during the call. -/
structure ProcessResult where
  ret : Except String Bool
  buf : List Op
  logs : List LogEvent

/-- Result of one `commit` call: the return value, the new `TO_SEND` buffer,
the chunks submitted to the backend via `elasticsearch.helpers.bulk` (in call
order), and the log records emitted. -/
structure CommitResult where
  ret : Bool
  buf : List Op
  calls : List (List Op)
  logs : List LogEvent

/-- Source `chunks(l, n)`: yield successive n-sized chunks of `l`.  The source
iterates `i = 0, n, 2n, ...` below `len(l)` and yields the slice `l[i:i+n]`;
this recursion yields exactly those slices in the same order (the slice at
`i = 0` is `l.take n`, and the later slices of `l` are the slices of
`l.drop n` shifted by `n`).  The source only ever calls it with `n = 500`;
for `n = 0` (where Python's `range` would raise) we return `[]`. -/
def chunks (l : List α) (n : Nat) : List (List α) :=
  match l with
  | [] => []
  | x :: xs =>
    if h2 : n = 0 then []
    else (x :: xs).take n :: chunks ((x :: xs).drop n) n
termination_by l.length
decreasing_by
  simp only [List.length_drop, List.length_cons]
  exact Nat.sub_lt (Nat.succ_pos _) (Nat.pos_of_ne_zero h2)

/-- Warning text of `LOG.warning("can't decode the line: %s as JSON" % tmp)`. -/
def cantDecodeMsg (tmp : String) : String :=
  "can\x27t decode the line: " ++ tmp ++ " as JSON"

/-- Warning text of `LOG.warning("the decoded line: %s must be a JSON dict" % tmp)`. -/
def mustBeDictMsg (tmp : String) : String :=
  "the decoded line: " ++ tmp ++ " must be a JSON dict"

/-- Warning text of the transformed-value warning in `process`. -/
def transformedMsg (t : Json) : String :=
  "the transformed function must return a dict (or None), got: " ++ pyTypeName t

/-- Info text of `LOG.info("commiting %i line(s) to ES..." % len(TO_SEND))`. -/
def commitingMsg (n : Nat) : String :=
  "commiting " ++ toString n ++ " line(s) to ES..."

/-- Warning text of `LOG.warning("can't post %i lines to ES" % (len(chunk) - res[0]))`. -/
def cantPostMsg (n : Nat) : String :=
  "can\x27t post " ++ toString n ++ " lines to ES"

/-- Debug text of `LOG.debug("raw output: %s" % res[1])`. -/
def rawOutputMsg (detail : String) : String :=
  "raw output: " ++ detail

/-- Whitespace characters stripped by Python's `str.strip()` (the ASCII ones;
unicode whitespace is irrelevant to the claims). -/
def isPySpace (c : Char) : Bool :=
  c = ' ' || c = '\t' || c = '\n' || c = '\r' || c = '\x0b' || c = '\x0c'

/-- Python's `line.strip()`. -/
def pyStrip (s : String) : String :=
  String.mk (((s.data.dropWhile isPySpace).reverse.dropWhile isPySpace).reverse)

/-- Source `process(line, transform_func, index_func)` acting on an explicit
buffer (the global `TO_SEND`).  `json_loads` models Python's `json.loads`
(`none` when it raises), `transform_func` returns `none` for Python `None`,
and `index_func` returns `Except.error` when the index function raises (the
default one can, see `default_index_func`); that exception is uncaught in
`process` and propagates. -/
def process (json_loads : String → Option Json)
    (transform_func : Json → Option Json)
    (index_func : Json → Except String String)
    (line : Option String) (buf : List Op) : ProcessResult :=
  match line with
  | none => ⟨.ok false, buf, []⟩
  | some l =>
    let tmp := pyStrip l
    if tmp.length = 0 then ⟨.ok false, buf, []⟩
    else
      match json_loads tmp with
      | none => ⟨.ok false, buf, [⟨.warning, cantDecodeMsg tmp⟩]⟩
      | some decoded =>
        if ¬ decoded.isDict then ⟨.ok false, buf, [⟨.warning, mustBeDictMsg tmp⟩]⟩
        else
          match index_func decoded with
          | .error e => ⟨.error e, buf, []⟩
          | .ok index =>
            match transform_func decoded with
            | none => ⟨.ok false, buf, []⟩
            | some transformed =>
              if ¬ transformed.isDict then
                ⟨.ok false, buf, [⟨.warning, transformedMsg transformed⟩]⟩
              else
                ⟨.ok true, buf ++ [⟨"index", index, "_doc", transformed⟩], []⟩

/-- Log records emitted for one chunk inside `commit`'s loop: `bulk` models
`elasticsearch.helpers.bulk(es, chunk, stats_only=False, raise_on_error=False)`
returning `(success count, raw failure detail)`; when the success count
differs from the chunk size the source logs a warning with the failed count
and a debug record with the raw detail. -/
def chunkLogs (bulk : List Op → Nat × String) (c : List Op) : List LogEvent :=
  let res := bulk c
  if res.1 ≠ c.length then
    [⟨.warning, cantPostMsg (c.length - res.1)⟩, ⟨.debug, rawOutputMsg res.2⟩]
  else []

/-- Source `commit(es, force)` acting on an explicit buffer (the global
`TO_SEND`).  `bulk` is the backend oracle (success count and raw failure
detail per chunk); `raise_on_error=False` in the source means the call never
raises, which the total oracle models. -/
def commit (bulk : List Op → Nat × String) (force : Bool) (buf : List Op) :
    CommitResult :=
  if force = false ∧ buf.length < 500 then ⟨false, buf, [], []⟩
  else if buf.length = 0 then ⟨false, buf, [], []⟩
  else
    { ret := true
      buf := []
      calls := chunks buf 500
      logs := ⟨.info, commitingMsg buf.length⟩ ::
        (chunks buf 500).flatMap (chunkLogs bulk) }

/-- State observed by `patched_is_new_file`: `tellPos` is
`self._filehandle().tell()` (the position already read), `fstatSize` and
`fstatIno` come from `os.fstat` on the open handle, `statIno` from
`os.stat(self.filename)` on the path, and `rotated_logfile` is the
`self._rotated_logfile` flag. -/
structure TailState where
  tellPos : Nat
  fstatSize : Nat
  fstatIno : Nat
  statIno : Nat
  rotated_logfile : Bool
deriving DecidableEq, Repr

/-- Source `patched_is_new_file(self)`:
`self._rotated_logfile or (size1 == size2 and inode1 != inode2) or
(inode1 == inode2 and size1 > size2)` with `size1 = tell()`,
`size2 = fstat(handle).st_size`, `inode1 = fstat(handle).st_ino`,
`inode2 = stat(path).st_ino`. -/
def patched_is_new_file (s : TailState) : Bool :=
  s.rotated_logfile ||
    (s.tellPos == s.fstatSize && s.fstatIno != s.statIno) ||
    (s.fstatIno == s.statIno && s.tellPos > s.fstatSize)

/-- Source `no_transform(dict_object)`: the identity transform (lifted to the
`Option` modelling of Python values, where `some` is a returned dict). -/
def no_transform (dict_object : Json) : Option Json :=
  some dict_object

/-- Naive/aware Python `datetime.datetime` as `default_index_func` uses it:
calendar/clock fields plus `utcoffset`, the value of `.utcoffset()` in
minutes (`none` for a naive datetime, where `.utcoffset()` is Python `None`). -/
structure PyDatetime where
  year : Nat
  month : Nat
  day : Nat
  hour : Nat
  minute : Nat
  second : Nat
  utcoffset : Option Int
deriving DecidableEq, Repr

/-- Gregorian leap-year rule. -/
def isLeapYear (y : Nat) : Bool :=
  y % 4 = 0 && (y % 100 != 0 || y % 400 = 0)

/-- Days in a month of the proleptic Gregorian calendar. -/
def daysInMonth (y m : Nat) : Nat :=
  if m = 2 then (if isLeapYear y then 29 else 28)
  else if m = 4 ∨ m = 6 ∨ m = 9 ∨ m = 11 then 30
  else 31

/-- Successor day of a `(year, month, day)` date. -/
def nextDay : Nat × Nat × Nat → Nat × Nat × Nat
  | (y, m, d) =>
    if d < daysInMonth y m then (y, m, d + 1)
    else if m < 12 then (y, m + 1, 1)
    else (y + 1, 1, 1)

/-- Predecessor day of a `(year, month, day)` date. -/
def prevDay : Nat × Nat × Nat → Nat × Nat × Nat
  | (y, m, d) =>
    if 1 < d then (y, m, d - 1)
    else if 1 < m then (y, m - 1, daysInMonth y (m - 1))
    else (y - 1, 12, 31)

/-- Shift a date by `k` days (`k` may be negative). -/
def addDaysCivil (ymd : Nat × Nat × Nat) (k : Int) : Nat × Nat × Nat :=
  if 0 ≤ k then nextDay^[k.toNat] ymd else prevDay^[(-k).toNat] ymd

/-- Subtraction `dt - timedelta(minutes=off)` on an (aware) datetime: the
wall-clock fields move back by `off` minutes with calendar carry, the
`utcoffset` field (the tzinfo) is unchanged.  This is the arithmetic of
`ref.replace(tzinfo=pytz.utc) - ref.utcoffset()` in the source. -/
def dtSubMinutes (dt : PyDatetime) (off : Int) : PyDatetime :=
  let tod : Int := (dt.hour : Int) * 60 + (dt.minute : Int)
  let total : Int := tod - off
  let dshift : Int := Int.fdiv total 1440
  let ntod : Nat := (Int.fmod total 1440).toNat
  let ymd := addDaysCivil (dt.year, dt.month, dt.day) dshift
  { year := ymd.1, month := ymd.2.1, day := ymd.2.2,
    hour := ntod / 60, minute := ntod % 60, second := dt.second,
    utcoffset := dt.utcoffset }

/-- Zero-padded decimal of width `w`. -/
def pad (w n : Nat) : String :=
  let s := toString n
  String.mk (List.replicate (w - s.length) '0') ++ s

/-- One `strftime` conversion specifier (CPython on glibc): the codes a date
pattern template needs; an unknown code is passed through unchanged. -/
def strfCode (c : Char) (dt : PyDatetime) : String :=
  if c = 'Y' then pad 4 dt.year
  else if c = 'm' then pad 2 dt.month
  else if c = 'd' then pad 2 dt.day
  else if c = 'H' then pad 2 dt.hour
  else if c = 'M' then pad 2 dt.minute
  else if c = 'S' then pad 2 dt.second
  else if c = 'y' then pad 2 (dt.year % 100)
  else if c = '%' then "%"
  else String.mk ['%', c]

/-- Character interpretation loop of `strftime`. -/
def strftimeAux (dt : PyDatetime) : List Char → List Char
  | [] => []
  | '%' :: c :: rest => (strfCode c dt).data ++ strftimeAux dt rest
  | c :: rest => c :: strftimeAux dt rest

/-- Python `dt.strftime(fmt)` on the modelled datetime. -/
def strftime (fmt : String) (dt : PyDatetime) : String :=
  String.mk (strftimeAux dt fmt.data)

/-- Two decimal digits. -/
def parse2 (cs : List Char) : Option (Nat × List Char) :=
  match cs with
  | a :: b :: rest =>
    if a.isDigit && b.isDigit then
      some ((a.toNat - 48) * 10 + (b.toNat - 48), rest)
    else none
  | _ => none

/-- Four decimal digits. -/
def parse4 (cs : List Char) : Option (Nat × List Char) :=
  match cs with
  | a :: b :: c :: d :: rest =>
    if a.isDigit && b.isDigit && c.isDigit && d.isDigit then
      some ((((a.toNat - 48) * 10 + (b.toNat - 48)) * 10 + (c.toNat - 48)) * 10
        + (d.toNat - 48), rest)
    else none
  | _ => none

/-- Trailing timezone designator of an ISO-8601 timestamp: empty (naive
datetime), `Z`, or `±HH:MM`; yields the `.utcoffset()` value in minutes. -/
def parseTzSuffix (cs : List Char) : Option (Option Int) :=
  match cs with
  | [] => some none
  | ['Z'] => some (some 0)
  | sign :: rest =>
    if sign = '+' ∨ sign = '-' then
      match parse2 rest with
      | some (hh, ':' :: rest2) =>
        match parse2 rest2 with
        | some (mm, []) =>
          if hh < 24 ∧ mm < 60 then
            let mins : Int := (hh : Int) * 60 + (mm : Int)
            some (some (if sign = '-' then -mins else mins))
          else none
        | _ => none
      | _ => none
    else none

/-- Clock part `HH:MM:SS` of an ISO-8601 timestamp followed by the timezone
designator. -/
def parseClock (cs : List Char) : Option (Nat × Nat × Nat × Option Int) :=
  match parse2 cs with
  | some (hh, ':' :: rest) =>
    match parse2 rest with
    | some (mi, ':' :: rest2) =>
      match parse2 rest2 with
      | some (ss, rest3) =>
        if hh < 24 ∧ mi < 60 ∧ ss < 60 then
          (parseTzSuffix rest3).map (fun off => (hh, mi, ss, off))
        else none
      | _ => none
    | _ => none
  | _ => none

/-- Modelled from the behaviour of the external `dateutil.parser.parse` on
ISO-8601 timestamps (`YYYY-MM-DD`, optionally `T`/space, `HH:MM:SS`,
optionally `Z` or `±HH:MM`): the shapes the source's `@timestamp` contract
covers.  `none` models the `ParserError` the library raises on a string it
cannot parse; an input without a timezone designator parses to a naive
datetime (`utcoffset = none`), exactly as `dateutil` returns. -/
def dateutil_parse (s : String) : Option PyDatetime :=
  match parse4 s.data with
  | some (y, '-' :: r1) =>
    match parse2 r1 with
    | some (mo, '-' :: r2) =>
      match parse2 r2 with
      | some (d, r3) =>
        if 1 ≤ mo ∧ mo ≤ 12 ∧ 1 ≤ d ∧ d ≤ daysInMonth y mo then
          match r3 with
          | [] => some ⟨y, mo, d, 0, 0, 0, none⟩
          | sep :: r4 =>
            if sep = 'T' ∨ sep = ' ' then
              (parseClock r4).map (fun c =>
                ⟨y, mo, d, c.1, c.2.1, c.2.2.1, c.2.2.2⟩)
            else none
        else none
      | _ => none
    | _ => none
  | _ => none

/-- Source `default_index_func(index_const_value, dict_object)`, with the
clock (`datetime.datetime.utcnow()`) passed explicitly as `now_utc`.  When
`@timestamp` is present the source runs
`ref = dateutil.parser.parse(dict_object["@timestamp"])` and
`ref_utc = ref.replace(tzinfo=pytz.utc) - ref.utcoffset()`; note that when
`ref` is naive, `ref.utcoffset()` is `None` and the subtraction raises
`TypeError`, and that an unparseable value makes `dateutil.parser.parse`
raise; both uncaught exceptions are modelled as `Except.error`. -/
def default_index_func (index_const_value : String) (dict_object : Json)
    (now_utc : PyDatetime) : Except String String :=
  match dict_object.lookup "@timestamp" with
  | some ts =>
    match ts with
    | .str s =>
      match dateutil_parse s with
      | none =>
        .error ("dateutil.parser.ParserError: could not parse: " ++ s)
      | some ref =>
        match ref.utcoffset with
        | none =>
          .error "TypeError: unsupported operand type(s) for -: datetime.datetime and NoneType"
        | some off =>
          .ok (strftime index_const_value
            (dtSubMinutes { ref with utcoffset := some 0 } off))
    | _ => .error "TypeError: parser must be a string or character stream"
  | none => .ok (strftime index_const_value now_utc)

/-- Whitespace skipped between JSON tokens by `json.loads`. -/
def isJsonWs (c : Char) : Bool :=
  c = ' ' || c = '\t' || c = '\n' || c = '\r'

/-- Skip inter-token whitespace. -/
def skipWs (cs : List Char) : List Char :=
  cs.dropWhile isJsonWs

/-- JSON string literal body (escape sequences unmodelled: none of the
concrete inputs used below contain them), after the opening quote. -/
def parseStringLit (cs : List Char) : Option (String × List Char) :=
  let content := cs.takeWhile (fun c => ¬ (c = '"' ∨ c = '\\'))
  match cs.drop content.length with
  | '"' :: rest => some (String.mk content, rest)
  | _ => none

/-- A nonempty run of decimal digits. -/
def parseDigits (cs : List Char) : Option (Nat × List Char) :=
  let ds := cs.takeWhile Char.isDigit
  if ds.isEmpty then none
  else some (ds.foldl (fun a c => a * 10 + (c.toNat - 48)) 0, cs.drop ds.length)

mutual

/-- Modelled from the behaviour of the external `json.loads`: one JSON value
(fuel-bounded recursive descent; integers only, duplicate keys kept in
order — neither restriction is exercised by any concrete input below). -/
def parseVal : Nat → List Char → Option (Json × List Char)
  | 0, _ => none
  | Nat.succ fuel, cs =>
    match skipWs cs with
    | 'n' :: 'u' :: 'l' :: 'l' :: rest => some (.null, rest)
    | 't' :: 'r' :: 'u' :: 'e' :: rest => some (.bool true, rest)
    | 'f' :: 'a' :: 'l' :: 's' :: 'e' :: rest => some (.bool false, rest)
    | '"' :: rest => (parseStringLit rest).map (fun p => (.str p.1, p.2))
    | '-' :: rest => (parseDigits rest).map (fun p => (.num (-(p.1 : Int)), p.2))
    | '[' :: rest =>
      match skipWs rest with
      | ']' :: rest2 => some (.arr [], rest2)
      | _ => (parseItems fuel rest).map (fun p => (.arr p.1, p.2))
    | '\x7b' :: rest =>
      match skipWs rest with
      | '\x7d' :: rest2 => some (.obj [], rest2)
      | _ => (parseMembers fuel rest).map (fun p => (.obj p.1, p.2))
    | c :: rest =>
      if c.isDigit then
        (parseDigits (c :: rest)).map (fun p => (.num (p.1 : Int), p.2))
      else none
    | [] => none

/-- Comma-separated array items up to the closing bracket. -/
def parseItems : Nat → List Char → Option (List Json × List Char)
  | 0, _ => none
  | Nat.succ fuel, cs =>
    (parseVal fuel cs).bind (fun p =>
      match skipWs p.2 with
      | ',' :: rest => (parseItems fuel rest).map (fun q => (p.1 :: q.1, q.2))
      | ']' :: rest => some ([p.1], rest)
      | _ => none)

/-- Comma-separated object members up to the closing brace. -/
def parseMembers : Nat → List Char → Option (List (String × Json) × List Char)
  | 0, _ => none
  | Nat.succ fuel, cs =>
    match skipWs cs with
    | '"' :: rest =>
      (parseStringLit rest).bind (fun kp =>
        match skipWs kp.2 with
        | ':' :: rest2 =>
          (parseVal fuel rest2).bind (fun vp =>
            match skipWs vp.2 with
            | ',' :: rest3 =>
              (parseMembers fuel rest3).map (fun q => ((kp.1, vp.1) :: q.1, q.2))
            | '\x7d' :: rest3 => some ([(kp.1, vp.1)], rest3)
            | _ => none)
        | _ => none)
    | _ => none

end

/-- Concrete model of `json.loads` on a whole input: a value and nothing but
trailing whitespace; `none` models the decode exception. -/
def json_loads (s : String) : Option Json :=
  match parseVal (s.length + 16) s.data with
  | some p => if (skipWs p.2).isEmpty then some p.1 else none
  | none => none

/-- Chunk sizes of a buffer of a given length: mirrors `chunks` on lengths
alone, so that boundary sizes evaluate numerically. -/
def lenChunks (len n : Nat) : List Nat :=
  if len = 0 then [] else if n = 0 then []
  else min n len :: lenChunks (len - n) n
termination_by len
decreasing_by
  exact Nat.sub_lt (Nat.pos_of_ne_zero (by assumption))
    (Nat.pos_of_ne_zero (by assumption))

/-- Sample pending write operation for concrete instantiations. -/
def sampleOp : Op :=
  ⟨"index", "logs", "_doc", .obj []⟩

/-- Backend oracle reporting full success on every chunk. -/
def bulkOk : List Op → Nat × String :=
  fun c => (c.length, "[]")

/-- Backend oracle reporting zero successes and a raw failure detail on every
chunk. -/
def bulkFail : List Op → Nat × String :=
  fun _ => (0, "item rejected")

/-- Sample value of `datetime.datetime.utcnow()` for concrete instantiations. -/
def nowSample : PyDatetime :=
  ⟨2024, 1, 1, 0, 0, 0, none⟩

/-- Default index function at template `logs-%Y.%m.%d` and the sample clock,
as `main` builds it with `functools.partial(default_index_func, args.ES_INDEX)`. -/
def sampleIdxf : Json → Except String String :=
  fun d => default_index_func "logs-%Y.%m.%d" d nowSample

/-- Index function that always returns a constant index and never raises, for
concrete instantiations. -/
def constIdxf : Json → Except String String :=
  fun _ => Except.ok "logs"


theorem chunks_eq_cons (l : List α) (n : Nat) (hl : l ≠ []) (hn : n ≠ 0) :
    chunks l n = l.take n :: chunks (l.drop n) n := by
  cases l with
  | nil => exact absurd rfl hl
  | cons x xs => rw [chunks]; simp [hn]

theorem chunks_flatten (n : Nat) (hn : n ≠ 0) (l : List α) :
    (chunks l n).flatten = l := by
  cases l with
  | nil => rw [chunks]; rfl
  | cons x xs =>
    rw [chunks_eq_cons _ _ (by simp) hn, List.flatten_cons, chunks_flatten n hn]
    exact List.take_append_drop n (x :: xs)
termination_by l.length
decreasing_by simp [List.length_drop]; omega

theorem chunks_map_length (n : Nat) (hn : n ≠ 0) (l : List α) :
    (chunks l n).map List.length = lenChunks l.length n := by
  cases l with
  | nil => rw [chunks, lenChunks]; simp
  | cons x xs =>
    have ih := chunks_map_length n hn ((x :: xs).drop n)
    rw [chunks_eq_cons _ _ (by simp) hn, lenChunks]
    simp only [List.map_cons, List.length_take, List.length_drop,
      List.length_cons, ih]
    simp [hn]
termination_by l.length
decreasing_by simp [List.length_drop]; omega

theorem lenChunks_length (n : Nat) (hn : n ≠ 0) (len : Nat) :
    (lenChunks len n).length = (len + n - 1) / n := by
  rw [lenChunks]
  by_cases h0 : len = 0
  · simp [h0, Nat.div_eq_of_lt (by omega : n - 1 < n)]
  · have ih := lenChunks_length n hn (len - n)
    simp only [h0, if_false, hn, List.length_cons, ih]
    have h1 : len + n - 1 = (len - 1) + n := by omega
    rw [h1, Nat.add_div_right _ (Nat.pos_of_ne_zero hn)]
    rcases Nat.lt_or_ge len n with hc | hc
    · have e1 : len - n + n - 1 = n - 1 := by omega
      rw [e1, Nat.div_eq_of_lt (by omega : n - 1 < n),
        Nat.div_eq_of_lt (by omega : len - 1 < n)]
    · have e1 : len - n + n - 1 = len - 1 := by omega
      rw [e1]
termination_by len
decreasing_by omega

theorem chunks_length_le (n : Nat) (hn : n ≠ 0) (l : List α) :
    ∀ c ∈ chunks l n, c.length ≤ n := by
  cases l with
  | nil => rw [chunks]; simp
  | cons x xs =>
    have ih := chunks_length_le n hn ((x :: xs).drop n)
    rw [chunks_eq_cons _ _ (by simp) hn]
    intro c hc
    rcases List.mem_cons.mp hc with h | h
    · subst h; simp [List.length_take]
    · exact ih c h
termination_by l.length
decreasing_by simp [List.length_drop]; omega

theorem chunks_eq_single (n : Nat) (hn : n ≠ 0) (l : List α) (hl : l ≠ [])
    (hlen : l.length ≤ n) : chunks l n = [l] := by
  rw [chunks_eq_cons _ _ hl hn, List.take_of_length_le hlen,
    List.drop_eq_nil_of_le hlen, chunks]

theorem commit_flush (bulk : List Op → Nat × String) (force : Bool)
    (buf : List Op) (h : buf ≠ []) (h2 : force = true ∨ 500 ≤ buf.length) :
    commit bulk force buf =
      ⟨true, [], chunks buf 500,
        ⟨.info, commitingMsg buf.length⟩ ::
          (chunks buf 500).flatMap (chunkLogs bulk)⟩ := by
  have h0 : buf.length ≠ 0 := by simpa [List.length_eq_zero] using h
  rw [commit, if_neg, if_neg h0]
  rintro ⟨hf, hlen⟩
  rcases h2 with h2 | h2
  · rw [h2] at hf; exact Bool.noConfusion hf
  · omega

/-- C1: `commit(force=true)` on a buffer of `n ≥ 1` pending operations submits
them to the backend in their original order as `ceil(n/500)` consecutive bulk
calls of at most 500 operations each (a buffer of 1001 yields exactly 3 calls
of sizes 500, 500, 1), empties the buffer, and returns `true`. -/
theorem commit_force_flushes (bulk : List Op → Nat × String) (buf : List Op)
    (h : buf ≠ []) :
    (commit bulk true buf).ret = true ∧
    (commit bulk true buf).buf = [] ∧
    (commit bulk true buf).calls.flatten = buf ∧
    (commit bulk true buf).calls.length = (buf.length + 499) / 500 ∧
    (∀ c ∈ (commit bulk true buf).calls, c.length ≤ 500) ∧
    (buf.length = 1001 →
      (commit bulk true buf).calls.map List.length = [500, 500, 1]) := by
  rw [commit_flush bulk true buf h (Or.inl rfl)]
  refine ⟨rfl, rfl, chunks_flatten 500 (by omega) buf, ?_, ?_, ?_⟩
  · have hm := congrArg List.length (chunks_map_length 500 (by omega) buf)
    rw [List.length_map] at hm
    rw [hm, lenChunks_length 500 (by omega)]
    omega
  · exact chunks_length_le 500 (by omega) buf
  · intro hlen
    rw [chunks_map_length 500 (by omega), hlen]
    simp [lenChunks]

theorem commit_force_flushes_witness :
    ([sampleOp] ≠ []) ∧
    ((commit bulkOk true [sampleOp]).ret = true ∧
     (commit bulkOk true [sampleOp]).buf = [] ∧
     (commit bulkOk true [sampleOp]).calls.flatten = [sampleOp] ∧
     (commit bulkOk true [sampleOp]).calls.length = (([sampleOp]).length + 499) / 500 ∧
     (∀ c ∈ (commit bulkOk true [sampleOp]).calls, c.length ≤ 500) ∧
     (([sampleOp] : List Op).length = 1001 →
       (commit bulkOk true [sampleOp]).calls.map List.length = [500, 500, 1])) :=
  ⟨by simp, commit_force_flushes bulkOk [sampleOp] (by simp)⟩

/-- C2: `commit(force=false)` on a buffer of fewer than 500 operations does
nothing (no backend call, buffer unchanged, returns `false`); on a buffer of
exactly 500 it performs exactly one chunk call and empties the buffer; and on
an empty buffer `commit` returns `false` with no backend call for both values
of `force`. -/
theorem commit_threshold (bulk : List Op → Nat × String) (buf : List Op) :
    (buf.length < 500 → commit bulk false buf = ⟨false, buf, [], []⟩) ∧
    (buf.length = 500 →
      (commit bulk false buf).calls = [buf] ∧
      (commit bulk false buf).buf = [] ∧
      (commit bulk false buf).ret = true) ∧
    commit bulk false [] = ⟨false, [], [], []⟩ ∧
    commit bulk true [] = ⟨false, [], [], []⟩ := by
  refine ⟨?_, ?_, ?_, ?_⟩
  · intro hlt
    rw [commit, if_pos ⟨rfl, hlt⟩]
  · intro h500
    have hne : buf ≠ [] := by
      intro e
      rw [e] at h500
      simp at h500
    rw [commit_flush bulk false buf hne (Or.inr (le_of_eq h500.symm)),
      chunks_eq_single 500 (by omega) buf hne (le_of_eq h500)]
    exact ⟨rfl, rfl, rfl⟩
  · rw [commit, if_pos ⟨rfl, by simp⟩]
  · rw [commit, if_neg, if_pos (show ([] : List Op).length = 0 from rfl)]
    rintro ⟨hf, _⟩
    exact Bool.noConfusion hf

theorem commit_threshold_witness :
    ((List.replicate 499 sampleOp).length < 500 ∧
      commit bulkOk false (List.replicate 499 sampleOp)
        = ⟨false, List.replicate 499 sampleOp, [], []⟩) ∧
    ((List.replicate 500 sampleOp).length = 500 ∧
      ((commit bulkOk false (List.replicate 500 sampleOp)).calls
          = [List.replicate 500 sampleOp] ∧
        (commit bulkOk false (List.replicate 500 sampleOp)).buf = [] ∧
        (commit bulkOk false (List.replicate 500 sampleOp)).ret = true)) :=
  ⟨⟨by simp only [List.length_replicate]; omega,
    (commit_threshold bulkOk _).1 (by simp only [List.length_replicate]; omega)⟩,
   ⟨by simp only [List.length_replicate],
    (commit_threshold bulkOk _).2.1 (by simp only [List.length_replicate])⟩⟩

/-- C4: a flushing `commit` never raises on a partial backend failure: for
each chunk whose reported success count is below the chunk size, a warning
with the count of failed items and the raw failure detail are logged, every
chunk is still submitted, and after all chunks the buffer is cleared
unconditionally and `true` is returned, regardless of how many items failed. -/
theorem commit_partial_failure (bulk : List Op → Nat × String) (force : Bool)
    (buf : List Op) (h : buf ≠ []) (h2 : force = true ∨ 500 ≤ buf.length) :
    (commit bulk force buf).ret = true ∧
    (commit bulk force buf).buf = [] ∧
    (commit bulk force buf).calls = chunks buf 500 ∧
    (∀ c ∈ (commit bulk force buf).calls, (bulk c).1 < c.length →
      (⟨.warning, cantPostMsg (c.length - (bulk c).1)⟩ : LogEvent)
          ∈ (commit bulk force buf).logs ∧
      (⟨.debug, rawOutputMsg (bulk c).2⟩ : LogEvent)
          ∈ (commit bulk force buf).logs) := by
  rw [commit_flush bulk force buf h h2]
  refine ⟨rfl, rfl, rfl, ?_⟩
  intro c hc hfail
  have hne : (bulk c).1 ≠ c.length := Nat.ne_of_lt hfail
  constructor
  · exact List.mem_cons_of_mem _
      (List.mem_flatMap.mpr ⟨c, hc, by simp [chunkLogs, hne]⟩)
  · exact List.mem_cons_of_mem _
      (List.mem_flatMap.mpr ⟨c, hc, by simp [chunkLogs, hne]⟩)

theorem commit_partial_failure_witness :
    (([sampleOp] : List Op) ≠ [] ∧
      (true = true ∨ 500 ≤ ([sampleOp] : List Op).length)) ∧
    ((commit bulkFail true [sampleOp]).ret = true ∧
     (commit bulkFail true [sampleOp]).buf = [] ∧
     (commit bulkFail true [sampleOp]).calls = chunks [sampleOp] 500 ∧
     (∀ c ∈ (commit bulkFail true [sampleOp]).calls,
        (bulkFail c).1 < c.length →
       (⟨.warning, cantPostMsg (c.length - (bulkFail c).1)⟩ : LogEvent)
           ∈ (commit bulkFail true [sampleOp]).logs ∧
       (⟨.debug, rawOutputMsg (bulkFail c).2⟩ : LogEvent)
           ∈ (commit bulkFail true [sampleOp]).logs)) :=
  ⟨⟨by simp, Or.inl rfl⟩,
   commit_partial_failure bulkFail true [sampleOp] (by simp) (Or.inl rfl)⟩

/-- Characterisation of Python's `len(tmp) == 0` test on a string. -/
theorem strLength_eq_zero (t : String) : t.length = 0 ↔ t = "" := by
  constructor
  · intro h
    apply String.ext
    have hd : t.data.length = 0 := h
    exact List.eq_nil_of_length_eq_zero hd
  · intro h
    rw [h]
    rfl

/-- C3: an input line that is not valid JSON, or that parses to a JSON value
that is not an object, makes `process` return `false`, log one warning, and
leave the batch buffer unchanged; an empty or whitespace-only line is likewise
rejected with the buffer unchanged, but silently (no warning). -/
theorem process_reject_malformed (loads : String → Option Json)
    (tf : Json → Option Json) (idxf : Json → Except String String)
    (buf : List Op) (s : String) :
    (pyStrip s = "" →
      process loads tf idxf (some s) buf = ⟨.ok false, buf, []⟩) ∧
    (pyStrip s ≠ "" → loads (pyStrip s) = none →
      process loads tf idxf (some s) buf
        = ⟨.ok false, buf, [⟨.warning, cantDecodeMsg (pyStrip s)⟩]⟩) ∧
    (∀ d, pyStrip s ≠ "" → loads (pyStrip s) = some d → d.isDict = false →
      process loads tf idxf (some s) buf
        = ⟨.ok false, buf, [⟨.warning, mustBeDictMsg (pyStrip s)⟩]⟩) := by
  refine ⟨?_, ?_, ?_⟩
  · intro h
    simp [process, h]
  · intro h1 h2
    have h0 : ¬ (pyStrip s).length = 0 := by
      simpa [strLength_eq_zero] using h1
    simp [process, h0, h2]
  · intro d h1 h2 h3
    have h0 : ¬ (pyStrip s).length = 0 := by
      simpa [strLength_eq_zero] using h1
    simp [process, h0, h2, h3]

theorem process_reject_malformed_witness :
    (pyStrip "not json" ≠ "" ∧ json_loads (pyStrip "not json") = none) ∧
    process json_loads no_transform sampleIdxf (some "not json") []
      = ⟨.ok false, [], [⟨.warning, cantDecodeMsg (pyStrip "not json")⟩]⟩ :=
  ⟨⟨by decide, rfl⟩,
   (process_reject_malformed json_loads no_transform sampleIdxf []
      "not json").2.1 (by decide) rfl⟩

/-- C6: the rotation-detection predicate holds exactly when the open handle is
flagged as the old file from a prior rotation, or the handle's on-disk size
equals the position already read while the handle's inode differs from the
path's current inode, or the handle's inode equals the path's inode and the
on-disk size is strictly smaller than the already-read position. -/
theorem patched_is_new_file_iff (s : TailState) :
    patched_is_new_file s = true ↔
      (s.rotated_logfile = true ∨
        (s.fstatSize = s.tellPos ∧ s.fstatIno ≠ s.statIno) ∨
        (s.fstatIno = s.statIno ∧ s.fstatSize < s.tellPos)) := by
  cases hr : s.rotated_logfile <;> simp [patched_is_new_file, hr]
  omega

/-- C7: the destination index is the index function applied to the decoded,
pre-transform document — when that application raises, the transform function
is never consulted — and the emitted pending write operation pairs that index
name with the transformed document as its body. -/
theorem process_index_before_transform (loads : String → Option Json)
    (tf : Json → Option Json) (idxf : Json → Except String String)
    (buf : List Op) (s : String) (d : Json) :
    (∀ i t, pyStrip s ≠ "" → loads (pyStrip s) = some d → d.isDict = true →
      idxf d = .ok i → tf d = some t → t.isDict = true →
      process loads tf idxf (some s) buf
        = ⟨.ok true, buf ++ [⟨"index", i, "_doc", t⟩], []⟩) ∧
    (∀ e tf2, pyStrip s ≠ "" → loads (pyStrip s) = some d → d.isDict = true →
      idxf d = .error e →
      process loads tf2 idxf (some s) buf = ⟨.error e, buf, []⟩) := by
  constructor
  · intro i t h1 h2 h3 h4 h5 h6
    have h0 : ¬ (pyStrip s).length = 0 := by
      simpa [strLength_eq_zero] using h1
    simp [process, h0, h2, h3, h4, h5, h6]
  · intro e tf2 h1 h2 h3 h4
    have h0 : ¬ (pyStrip s).length = 0 := by
      simpa [strLength_eq_zero] using h1
    simp [process, h0, h2, h3, h4]

theorem process_index_before_transform_witness :
    (pyStrip "\x7b\"a\":1\x7d" ≠ "" ∧
      json_loads (pyStrip "\x7b\"a\":1\x7d") = some (.obj [("a", .num 1)]) ∧
      (Json.obj [("a", .num 1)]).isDict = true ∧
      sampleIdxf (.obj [("a", .num 1)]) = .ok "logs-2024.01.01" ∧
      no_transform (.obj [("a", .num 1)]) = some (.obj [("a", .num 1)]) ∧
      (Json.obj [("a", .num 1)]).isDict = true) ∧
    process json_loads no_transform sampleIdxf (some "\x7b\"a\":1\x7d") []
      = ⟨.ok true,
          [] ++ [⟨"index", "logs-2024.01.01", "_doc", .obj [("a", .num 1)]⟩],
          []⟩ :=
  ⟨⟨by decide, rfl, rfl, rfl, rfl, rfl⟩,
   (process_index_before_transform json_loads no_transform sampleIdxf []
      "\x7b\"a\":1\x7d" (.obj [("a", .num 1)])).1 "logs-2024.01.01"
      (.obj [("a", .num 1)]) (by decide) rfl rfl rfl rfl rfl⟩

/-- C10: `process` on a missing line (Python `None`) returns `false` without
logging and leaves the batch buffer unchanged. -/
theorem process_none_line (loads : String → Option Json)
    (tf : Json → Option Json) (idxf : Json → Except String String)
    (buf : List Op) :
    process loads tf idxf none buf = ⟨.ok false, buf, []⟩ :=
  rfl

/-- C5: a document with `@timestamp` `2023-01-01T23:30:00+02:00` and index
template `logs-%Y.%m.%d` routes to `logs-2023.01.01` (UTC shift to 21:30,
same day; a boundary instance where the dates differ is included); in general
a present `@timestamp` is parsed, converted to UTC by subtracting its UTC
offset and formatted through the template, and an absent one falls back to
the current UTC time. -/
theorem default_index_func_routes :
    (∀ now, default_index_func "logs-%Y.%m.%d"
        (.obj [("@timestamp", .str "2023-01-01T23:30:00+02:00")]) now
        = .ok "logs-2023.01.01") ∧
    (∀ now, default_index_func "logs-%Y.%m.%d"
        (.obj [("@timestamp", .str "2023-01-01T01:30:00+02:00")]) now
        = .ok "logs-2022.12.31") ∧
    (∀ tmpl doc now, doc.lookup "@timestamp" = none →
      default_index_func tmpl doc now = .ok (strftime tmpl now)) ∧
    (∀ tmpl doc now s ref off, doc.lookup "@timestamp" = some (.str s) →
      dateutil_parse s = some ref → ref.utcoffset = some off →
      default_index_func tmpl doc now
        = .ok (strftime tmpl
            (dtSubMinutes { ref with utcoffset := some 0 } off))) := by
  refine ⟨fun _ => rfl, fun _ => rfl, ?_, ?_⟩
  · intro tmpl doc now h
    simp [default_index_func, h]
  · intro tmpl doc now s ref off h1 h2 h3
    simp [default_index_func, h1, h2, h3]

theorem default_index_func_routes_witness :
    ((Json.obj [("a", .num 1)]).lookup "@timestamp" = none ∧
      default_index_func "logs-%Y.%m.%d" (.obj [("a", .num 1)]) nowSample
        = .ok (strftime "logs-%Y.%m.%d" nowSample)) ∧
    ((Json.obj [("@timestamp", .str "2023-01-01T23:30:00+02:00")]).lookup
        "@timestamp" = some (.str "2023-01-01T23:30:00+02:00") ∧
      dateutil_parse "2023-01-01T23:30:00+02:00"
        = some ⟨2023, 1, 1, 23, 30, 0, some 120⟩ ∧
      default_index_func "logs-%Y.%m.%d"
          (.obj [("@timestamp", .str "2023-01-01T23:30:00+02:00")]) nowSample
        = .ok (strftime "logs-%Y.%m.%d"
            (dtSubMinutes ⟨2023, 1, 1, 23, 30, 0, some 0⟩ 120))) :=
  ⟨⟨rfl, default_index_func_routes.2.2.1 "logs-%Y.%m.%d"
      (.obj [("a", .num 1)]) nowSample rfl⟩,
   ⟨rfl, rfl, default_index_func_routes.2.2.2 "logs-%Y.%m.%d"
      (.obj [("@timestamp", .str "2023-01-01T23:30:00+02:00")]) nowSample
      "2023-01-01T23:30:00+02:00" ⟨2023, 1, 1, 23, 30, 0, some 120⟩ 120
      rfl rfl rfl⟩⟩

/-- C8 as stated is false on the code: with the default transform and the
default index function, a valid JSON-object line whose `@timestamp` is an
ISO timestamp without a timezone designator makes `process` propagate an
uncaught `TypeError` (from `ref.replace(tzinfo=pytz.utc) - ref.utcoffset()`
with `ref.utcoffset()` being `None`) instead of returning a boolean. -/
theorem process_raises_counterexample :
    (process json_loads no_transform sampleIdxf
        (some "\x7b\"@timestamp\":\"2023-01-01T23:30:00\"\x7d") []).ret
      = .error
        "TypeError: unsupported operand type(s) for -: datetime.datetime and NoneType" :=
  rfl

/-- C8 amended: `process` can only raise through the index function applied to
a successfully decoded JSON object; every other path — missing line, blank
line, invalid JSON, non-object JSON, transform declining or returning a
non-dict — returns a boolean, logs at most a warning, and leaves the buffer
unchanged on rejection, so whenever the index function returns normally on
every document (which the default one does not on a naive or unparseable
`@timestamp`), `process` never raises. -/
theorem process_no_raise_amended (loads : String → Option Json)
    (tf : Json → Option Json) (idxf : Json → Except String String)
    (line : Option String) (buf : List Op) :
    ((∀ d, (idxf d).isOk = true) →
      ∃ b, (process loads tf idxf line buf).ret = .ok b) ∧
    (∀ e, (process loads tf idxf line buf).ret = .error e →
      ∃ s d, line = some s ∧ pyStrip s ≠ "" ∧ loads (pyStrip s) = some d ∧
        d.isDict = true ∧ idxf d = .error e ∧
        (process loads tf idxf line buf).buf = buf ∧
        (process loads tf idxf line buf).logs = []) := by
  cases line with
  | none =>
    exact ⟨fun _ => ⟨false, rfl⟩, fun e he => by simp [process] at he⟩
  | some s =>
    by_cases h0 : (pyStrip s).length = 0
    · refine ⟨fun _ => ⟨false, by simp [process, h0]⟩, fun e he => ?_⟩
      simp [process, h0] at he
    · have hs : pyStrip s ≠ "" := by
        intro h
        exact h0 ((strLength_eq_zero (pyStrip s)).mpr h)
      cases hl : loads (pyStrip s) with
      | none =>
        refine ⟨fun _ => ⟨false, by simp [process, h0, hl]⟩, fun e he => ?_⟩
        simp [process, h0, hl] at he
      | some d =>
        cases hd : d.isDict with
        | false =>
          refine ⟨fun _ => ⟨false, by simp [process, h0, hl, hd]⟩,
            fun e he => ?_⟩
          simp [process, h0, hl, hd] at he
        | true =>
          cases hidx : idxf d with
          | error e0 =>
            refine ⟨fun hok => absurd (hok d) (by simp [hidx, Except.isOk, Except.toBool]),
              fun e he => ?_⟩
            have he0 : e0 = e := by
              simpa [process, h0, hl, hd, hidx] using he
            exact ⟨s, d, rfl, hs, hl, hd, he0 ▸ hidx,
              by simp [process, h0, hl, hd, hidx],
              by simp [process, h0, hl, hd, hidx]⟩
          | ok i =>
            refine ⟨fun _ => ?_, fun e he => ?_⟩
            · cases ht : tf d with
              | none => exact ⟨false, by simp [process, h0, hl, hd, hidx, ht]⟩
              | some t =>
                cases htd : t.isDict with
                | false =>
                  exact ⟨false, by simp [process, h0, hl, hd, hidx, ht, htd]⟩
                | true =>
                  exact ⟨true, by simp [process, h0, hl, hd, hidx, ht, htd]⟩
            · cases ht : tf d with
              | none => simp [process, h0, hl, hd, hidx, ht] at he
              | some t =>
                cases htd : t.isDict with
                | false => simp [process, h0, hl, hd, hidx, ht, htd] at he
                | true => simp [process, h0, hl, hd, hidx, ht, htd] at he

theorem process_no_raise_amended_witness :
    (∀ d, (constIdxf d).isOk = true) ∧
    ∃ b, (process json_loads no_transform constIdxf
        (some "\x7b\"a\":1\x7d") []).ret = .ok b :=
  ⟨fun _ => rfl,
   (process_no_raise_amended json_loads no_transform constIdxf
      (some "\x7b\"a\":1\x7d") []).1 (fun _ => rfl)⟩

/-- C9: the batch buffer is append-only between flushes — `process` either
leaves it exactly unchanged or appends exactly one pending operation at its
end — and `commit` either declines (returns `false` with the buffer intact)
or drains it completely. -/
theorem buffer_append_only (loads : String → Option Json)
    (tf : Json → Option Json) (idxf : Json → Except String String)
    (line : Option String) (buf : List Op)
    (bulk : List Op → Nat × String) (force : Bool) :
    ((process loads tf idxf line buf).buf = buf ∨
      ∃ op, (process loads tf idxf line buf).buf = buf ++ [op]) ∧
    ((commit bulk force buf).ret = false ∧ (commit bulk force buf).buf = buf ∨
      (commit bulk force buf).ret = true ∧ (commit bulk force buf).buf = []) := by
  constructor
  · cases line with
    | none => exact Or.inl rfl
    | some s =>
      by_cases h0 : (pyStrip s).length = 0
      · exact Or.inl (by simp [process, h0])
      · cases hl : loads (pyStrip s) with
        | none => exact Or.inl (by simp [process, h0, hl])
        | some d =>
          cases hd : d.isDict with
          | false => exact Or.inl (by simp [process, h0, hl, hd])
          | true =>
            cases hidx : idxf d with
            | error e => exact Or.inl (by simp [process, h0, hl, hd, hidx])
            | ok i =>
              cases ht : tf d with
              | none => exact Or.inl (by simp [process, h0, hl, hd, hidx, ht])
              | some t =>
                cases htd : t.isDict with
                | false =>
                  exact Or.inl (by simp [process, h0, hl, hd, hidx, ht, htd])
                | true =>
                  exact Or.inr ⟨⟨"index", i, "_doc", t⟩,
                    by simp [process, h0, hl, hd, hidx, ht, htd]⟩
  · rw [commit]
    split
    · exact Or.inl ⟨rfl, rfl⟩
    · split
      · exact Or.inl ⟨rfl, rfl⟩
      · exact Or.inr ⟨rfl, rfl⟩
